import Mathlib

/-!
Verification of the job-engine / RPC-transport core of the `rasp_pi_webUI`
repository (Pi Agent + Panel backend).

The development shallowly embeds the Python sources:

* `src/agent/rpc/socket_server.py` — framed channel and JSON-RPC dispatch;
* `src/agent/jobs/runner.py`       — job store, worker pool and phase executor;
* `src/agent/pi-agent.py`          — the agent's RPC handler registry;
* `src/panel/api/routers/jobs.py` and `src/panel/api/services/agent_client.py`
  — the Panel's reconciliation layer and its RPC client.

JSON values exchanged between the processes are modelled by the inductive
type `PyVal` (Python's `None`/`bool`/`int`/`str`/`list`/`dict` as used by the
code); machine integers do not overflow in any of the modelled paths, so
`Nat`/`Int` are used directly.  Byte streams are lists of naturals.
-/

/-- Model of the Python/JSON values the sources manipulate: `None`, booleans,
integers, strings, lists and string-keyed dicts. -/
inductive PyVal where
  | none : PyVal
  | bool : Bool → PyVal
  | int : Int → PyVal
  | str : String → PyVal
  | list : List PyVal → PyVal
  | dict : List (String × PyVal) → PyVal

/-- Python truthiness (`bool(x)`): `None`/`False`/`0`/empty containers are
falsy, everything else is truthy. -/
def truthy : PyVal → Bool
  | .none => false
  | .bool b => b
  | .int n => n != 0
  | .str s => s.length != 0
  | .list xs => xs.length != 0
  | .dict es => es.length != 0

/-- `isinstance(v, dict)`. -/
def PyVal.isDict : PyVal → Bool
  | .dict _ => true
  | _ => false

/-- `isinstance(v, str)`. -/
def PyVal.isStr : PyVal → Bool
  | .str _ => true
  | _ => false

/-- The underlying string of a `PyVal.str` (defaults to `""`; only used where
the source has already checked `isinstance(v, str)`). -/
def PyVal.asStr : PyVal → String
  | .str s => s
  | _ => ""

/-- `v.get(k, d)` for a value the source has already checked to be a dict
(total helper; the non-dict case returns the default and is only exercised
behind `isinstance` guards in the embedded code). -/
def PyVal.getD (v : PyVal) (k : String) (d : PyVal) : PyVal :=
  match v with
  | .dict es =>
    match es.find? (fun p => p.1 == k) with
    | some p => p.2
    | Option.none => d
  | _ => d

/-- `v.get(k, d)` where the source does NOT guard against non-dicts: Python
raises `AttributeError` there, modelled as the `Except` error case. -/
def pyGetExc (v : PyVal) (k : String) (d : PyVal) : Except String PyVal :=
  if v.isDict then .ok (v.getD k d) else .error "AttributeError: object has no attribute get"

/-- `k in v` for dicts (`False` on non-dicts; the source guards with
`isinstance(result, dict)` first). -/
def hasKey (v : PyVal) (k : String) : Bool :=
  match v with
  | .dict es => es.any (fun p => p.1 == k)
  | _ => false

mutual

/-- Python `repr` of a value (container elements are rendered with `repr`,
as `str` of a container does). -/
def pyRepr : PyVal → String
  | .none => "None"
  | .bool true => "True"
  | .bool false => "False"
  | .int n => toString n
  | .str s => "\x27" ++ s ++ "\x27"
  | .list xs => "[" ++ String.intercalate ", " (pyReprList xs) ++ "]"
  | .dict es => "\x7b" ++ String.intercalate ", " (pyReprEntries es) ++ "\x7d"

/-- `repr` of each element of a list. -/
def pyReprList : List PyVal → List String
  | [] => []
  | x :: xs => pyRepr x :: pyReprList xs

/-- `repr` of each `key: value` entry of a dict. -/
def pyReprEntries : List (String × PyVal) → List String
  | [] => []
  | (k, v) :: es => ("\x27" ++ k ++ "\x27: " ++ pyRepr v) :: pyReprEntries es

end

/-- Python `str(x)` as used in the f-strings of the sources: the identity on
strings, `repr`-like otherwise. -/
def pyStr : PyVal → String
  | .str s => s
  | v => pyRepr v

/-!
## Framed channel (`src/agent/rpc/socket_server.py`)

Every message is a 4-byte big-endian length prefix followed by that many
payload bytes; the reader (`SocketServer._handle_client`) drops the
connection when the declared length exceeds `10 * 1024 * 1024`.
-/

/-- `n.to_bytes(w, "big")`: big-endian byte string of width `w`. -/
def toBytesBE : Nat → Nat → List Nat
  | 0, _ => []
  | w + 1, n => toBytesBE w (n / 256) ++ [n % 256]

/-- `int.from_bytes(bs, "big")`. -/
def fromBytesBE (bs : List Nat) : Nat :=
  bs.foldl (fun acc b => acc * 256 + b) 0

/-- The `10 * 1024 * 1024` message-size ceiling of `_handle_client`. -/
def maxFrameLen : Nat := 10 * 1024 * 1024

/-- Writing one framed message (`writer.write(len(b).to_bytes(4, "big"))`
followed by `writer.write(b)`). -/
def encodeFrame (payload : List Nat) : List Nat :=
  toBytesBE 4 payload.length ++ payload

/-- Outcome of reading one frame from a byte stream. -/
inductive ReadOutcome where
  | incomplete : ReadOutcome
  | tooLarge : ReadOutcome
  | frame : List Nat → List Nat → ReadOutcome
deriving DecidableEq

/-- One iteration of the `_handle_client` read loop: `readexactly(4)`, decode
the big-endian length, reject (`break`) if it exceeds the ceiling — without
reading any payload bytes — otherwise `readexactly(length)`.  `incomplete`
is the `IncompleteReadError` path. -/
def readFrame (stream : List Nat) : ReadOutcome :=
  if 4 ≤ stream.length then
    let len := fromBytesBE (stream.take 4)
    if len > maxFrameLen then .tooLarge
    else
      let rest := stream.drop 4
      if len ≤ rest.length then .frame (rest.take len) (rest.drop len)
      else .incomplete
  else .incomplete

/-- The whole read loop of `_handle_client` viewed only through the payloads
it accepts: it stops (and the `finally` block closes the connection) on an
oversized declared length or a short read. -/
def recvFrames (stream : List Nat) : List (List Nat) :=
  if _h4 : 4 ≤ stream.length then
    let len := fromBytesBE (stream.take 4)
    if len > maxFrameLen then []
    else
      let rest := stream.drop 4
      if _hlen : len ≤ rest.length then
        rest.take len :: recvFrames (rest.drop len)
      else []
  else []
termination_by stream.length
decreasing_by
  simp only [List.length_drop]
  omega

theorem toBytesBE_length (w n : Nat) : (toBytesBE w n).length = w := by
  induction w generalizing n with
  | zero => rfl
  | succ w ih => simp [toBytesBE, ih]

theorem fromBytesBE_toBytesBE (w n : Nat) (h : n < 256 ^ w) :
    fromBytesBE (toBytesBE w n) = n := by
  induction w generalizing n with
  | zero =>
    simp [toBytesBE, fromBytesBE]
    omega
  | succ w ih =>
    have hdiv : n / 256 < 256 ^ w := by
      rw [Nat.div_lt_iff_lt_mul (by norm_num)]
      calc n < 256 ^ (w + 1) := h
        _ = 256 ^ w * 256 := by ring
    simp only [toBytesBE, fromBytesBE, List.foldl_append, List.foldl_cons, List.foldl_nil]
    have : List.foldl (fun acc b => acc * 256 + b) 0 (toBytesBE w (n / 256)) = n / 256 := by
      have := ih (n / 256) hdiv
      simpa [fromBytesBE] using this
    rw [this]
    omega

theorem readFrame_encode (payload rest : List Nat) (h : payload.length ≤ maxFrameLen) :
    readFrame (encodeFrame payload ++ rest) = .frame payload rest := by
  have hlen4 : (toBytesBE 4 payload.length).length = 4 := toBytesBE_length 4 payload.length
  have hassoc : encodeFrame payload ++ rest = toBytesBE 4 payload.length ++ (payload ++ rest) := by
    simp [encodeFrame]
  have hlt : payload.length < 256 ^ 4 := by
    have : maxFrameLen < 256 ^ 4 := by norm_num [maxFrameLen]
    omega
  have htake : (toBytesBE 4 payload.length ++ (payload ++ rest)).take 4 =
      toBytesBE 4 payload.length := List.take_left' hlen4
  have hdrop : (toBytesBE 4 payload.length ++ (payload ++ rest)).drop 4 = payload ++ rest :=
    List.drop_left' hlen4
  rw [hassoc, readFrame]
  simp only [htake, hdrop, fromBytesBE_toBytesBE 4 payload.length hlt]
  rw [if_pos, if_neg (by omega), if_pos (by simp)]
  · simp [List.take_left, List.drop_left]
  · simp only [List.length_append, hlen4]
    omega

theorem readFrame_oversize (hdr rest : List Nat) (h4 : hdr.length = 4)
    (hbig : maxFrameLen < fromBytesBE hdr) :
    readFrame (hdr ++ rest) = .tooLarge := by
  have htake : (hdr ++ rest).take 4 = hdr := List.take_left' h4
  rw [readFrame]
  simp only [htake]
  rw [if_pos (by simp [List.length_append, h4]), if_pos (by omega)]

theorem recvFrames_oversize (hdr rest : List Nat) (h4 : hdr.length = 4)
    (hbig : maxFrameLen < fromBytesBE hdr) :
    recvFrames (hdr ++ rest) = [] := by
  have htake : (hdr ++ rest).take 4 = hdr := List.take_left' h4
  rw [recvFrames]
  simp only [htake]
  rw [dif_pos (by simp [List.length_append, h4]), if_pos (by omega)]

/-- C5: encoding a payload of size `k ≤ 10 MiB` as a 4-byte big-endian
length prefix plus the payload bytes and then reading it back yields the
byte-identical payload (with the remainder of the stream untouched); a frame
whose declared length exceeds the 10 MiB ceiling is rejected without any
attempt to read the declared number of payload bytes — the reject fires even
when fewer than the declared bytes exist — and the read loop stops there,
after which `_handle_client`'s `finally` closes the connection. -/
theorem framed_channel_roundtrip_and_ceiling :
    (∀ payload rest : List Nat, payload.length ≤ maxFrameLen →
      readFrame (encodeFrame payload ++ rest) = .frame payload rest)
    ∧ (∀ hdr rest : List Nat, hdr.length = 4 → maxFrameLen < fromBytesBE hdr →
      readFrame (hdr ++ rest) = .tooLarge ∧ recvFrames (hdr ++ rest) = []) := by
  constructor
  · exact readFrame_encode
  · intro hdr rest h4 hbig
    exact ⟨readFrame_oversize hdr rest h4 hbig, recvFrames_oversize hdr rest h4 hbig⟩

/-- Witness for C5 at a concrete 3-byte payload and a concrete oversized
header (declared length `2^31 > 10 MiB`, with only one byte available). -/
theorem framed_channel_roundtrip_and_ceiling_witness :
    readFrame (encodeFrame [7, 0, 255] ++ [1, 2]) = .frame [7, 0, 255] [1, 2]
    ∧ readFrame ([128, 0, 0, 0] ++ [9]) = .tooLarge := by
  refine ⟨framed_channel_roundtrip_and_ceiling.1 [7, 0, 255] [1, 2] (by norm_num [maxFrameLen]), ?_⟩
  exact (framed_channel_roundtrip_and_ceiling.2 [128, 0, 0, 0] [9] (by rfl)
    (by norm_num [fromBytesBE, maxFrameLen])).1

/-!
## JSON-RPC dispatch (`SocketServer._process_request` / `_error_response`,
and `PiAgent._handle_rpc`)

The JSON codec is treated as an oracle: a received message is represented by
the outcome of `json.loads` on it (`Except.error` = `JSONDecodeError`).
-/

/-- `SocketServer._error_response` (the `message` slot is whatever Python
value the caller passes: the `-32000` branch passes `result["error"]`). -/
def errorResponse (rid : PyVal) (code : Int) (message : PyVal) : PyVal :=
  .dict [("jsonrpc", .str "2.0"), ("id", rid), ("error", .dict [("code", .int code), ("message", message)])]

/-- The success response shape of `_process_request`. -/
def successResponse (rid result : PyVal) : PyVal :=
  .dict [("jsonrpc", .str "2.0"), ("id", rid), ("result", result)]

/-- `SocketServer._process_request`: validation of the request shape, then
dispatch to the handler callable (modelled as a function returning
`Except.error msg` when it raises). -/
def processRequest (handler : String → PyVal → Except String PyVal) (request : PyVal) : PyVal :=
  if !request.isDict then errorResponse .none (-32600) (.str "Invalid Request")
  else
    let rid := request.getD "id" .none
    let method := request.getD "method" .none
    let params := request.getD "params" (.dict [])
    if !truthy method then errorResponse rid (-32600) (.str "Method required")
    else if !method.isStr then errorResponse rid (-32600) (.str "Method must be string")
    else if truthy params && !params.isDict then errorResponse rid (-32602) (.str "Params must be object")
    else
      match handler method.asStr (if truthy params then params else .dict []) with
      | .error e => errorResponse rid (-32603) (.str ("Internal error: " ++ e))
      | .ok result =>
        if result.isDict && hasKey result "error" then
          errorResponse rid (-32000) (result.getD "error" .none)
        else
          successResponse rid (if result.isDict then result.getD "result" .none else result)

/-- One loop iteration of `_handle_client` after the frame is read: the
`json.loads` outcome is either a parse error (`-32700`) or a request handed
to `_process_request`; exactly one response is written back. -/
def serverRespond (handler : String → PyVal → Except String PyVal) :
    Except String PyVal → PyVal
  | .error e => errorResponse .none (-32700) (.str ("Parse error: " ++ e))
  | .ok request => processRequest handler request

/-- The method-name keys of the `handlers` registry built by
`PiAgent._handle_rpc`. -/
def agentHandlers : List String :=
  ["discovery.snapshot", "discovery.refresh",
   "resource.action", "resource.logs", "resource.stats",
   "telemetry.current", "telemetry.query",
   "job.run", "job.status", "job.cancel",
   "system.info", "system.health",
   "network.interfaces", "network.wifi.toggle", "network.wifi.scan",
   "network.wifi.status", "network.wifi.connect", "network.wifi.disconnect",
   "network.interface.enable", "network.interface.disable", "network.interface.restart",
   "devices.list", "devices.command"]

/-- `PiAgent._handle_rpc`: unknown methods yield an explicit
`{"error": "Unknown method: ..."}` payload; a registered handler's return
value is wrapped in `{"result": ...}` and its exceptions in
`{"error": str(e)}` — `_handle_rpc` itself never raises.  `inner` stands for
the registered component methods (providers, telemetry, job runner). -/
def agentHandleRpc (inner : String → PyVal → Except String PyVal)
    (method : String) (params : PyVal) : PyVal :=
  if agentHandlers.contains method then
    match inner method params with
    | .ok r => .dict [("result", r)]
    | .error e => .dict [("error", .str e)]
  else .dict [("error", .str ("Unknown method: " ++ method))]

/-- The socket server's handler callable when the agent wires
`handler=self._handle_rpc`: it never raises. -/
def agentDispatch (inner : String → PyVal → Except String PyVal) :
    String → PyVal → Except String PyVal :=
  fun m p => .ok (agentHandleRpc inner m p)

/-- `request.get("id")` of a parsed request (`None` for unparseable or
non-object requests, which carry no correlation id). -/
def requestIdOf : Except String PyVal → PyVal
  | .error _ => .none
  | .ok req => if req.isDict then req.getD "id" .none else .none

/-- `request.get("method")`. -/
def reqMethod (req : PyVal) : PyVal := req.getD "method" .none

/-- `request.get("params", {})`. -/
def reqParams (req : PyVal) : PyVal := req.getD "params" (.dict [])

/-- The method string of a request whose method passed the string check. -/
def methodName (req : PyVal) : String := (reqMethod req).asStr

/-- `params or {}`: the params object actually passed to the handler. -/
def effParams (req : PyVal) : PyVal :=
  if truthy (reqParams req) then reqParams req else .dict []

/-- A request that passes all of `_process_request`'s shape validation. -/
def WellFormedReq (req : PyVal) : Prop :=
  req.isDict = true ∧ truthy (reqMethod req) = true ∧ (reqMethod req).isStr = true ∧
  (truthy (reqParams req) = false ∨ (reqParams req).isDict = true)

/-- The `error.code` of a response, if it is an error response. -/
def errCodeOf (resp : PyVal) : Option Int :=
  match resp.getD "error" PyVal.none with
  | .dict es =>
    match (PyVal.dict es).getD "code" PyVal.none with
    | .int c => some c
    | _ => Option.none
  | _ => Option.none

theorem errorResponse_getId (rid : PyVal) (c : Int) (m : PyVal) :
    (errorResponse rid c m).getD "id" .none = rid := by
  simp [errorResponse, PyVal.getD, List.find?]

theorem successResponse_getId (rid r : PyVal) :
    (successResponse rid r).getD "id" .none = rid := by
  simp [successResponse, PyVal.getD, List.find?]

theorem errorResponse_keys (rid : PyVal) (c : Int) (m : PyVal) :
    hasKey (errorResponse rid c m) "error" = true
    ∧ hasKey (errorResponse rid c m) "result" = false := by
  simp [errorResponse, hasKey]

theorem successResponse_keys (rid r : PyVal) :
    hasKey (successResponse rid r) "error" = false
    ∧ hasKey (successResponse rid r) "result" = true := by
  simp [successResponse, hasKey]

theorem processRequest_wellFormed (handler : String → PyVal → Except String PyVal)
    (req : PyVal) (hwf : WellFormedReq req) :
    processRequest handler req =
      match handler (methodName req) (effParams req) with
      | .error e => errorResponse (req.getD "id" .none) (-32603) (.str ("Internal error: " ++ e))
      | .ok result =>
        if result.isDict && hasKey result "error" then
          errorResponse (req.getD "id" .none) (-32000) (result.getD "error" .none)
        else
          successResponse (req.getD "id" .none)
            (if result.isDict then result.getD "result" .none else result) := by
  obtain ⟨hd, hm, hs, hp⟩ := hwf
  simp only [reqMethod, reqParams] at hm hs hp
  rw [processRequest]
  simp only [hd, hm, hs, Bool.not_true, if_false, Bool.false_and, methodName, reqMethod, effParams,
    reqParams]
  rcases hp with hp | hp <;> simp [hp, hm, hs]

theorem serverRespond_id (handler : String → PyVal → Except String PyVal)
    (d : Except String PyVal) :
    (serverRespond handler d).getD "id" PyVal.none = requestIdOf d := by
  cases d with
  | error e => simp [serverRespond, requestIdOf, errorResponse_getId]
  | ok req =>
    simp only [serverRespond, requestIdOf, processRequest]
    split
    · next h =>
      have hd : req.isDict = false := by simpa using h
      simp [hd, errorResponse_getId]
    · next h =>
      have hd : req.isDict = true := by simpa using h
      simp only [hd, if_pos]
      split
      · exact errorResponse_getId _ _ _
      · split
        · exact errorResponse_getId _ _ _
        · split
          · exact errorResponse_getId _ _ _
          · split
            · exact errorResponse_getId _ _ _
            · split
              · exact errorResponse_getId _ _ _
              · exact successResponse_getId _ _

theorem serverRespond_xor (handler : String → PyVal → Except String PyVal)
    (d : Except String PyVal) :
    ((hasKey (serverRespond handler d) "error").xor
      (hasKey (serverRespond handler d) "result")) = true := by
  have herr : ∀ (rid : PyVal) (c : Int) (m : PyVal),
      ((hasKey (errorResponse rid c m) "error").xor
        (hasKey (errorResponse rid c m) "result")) = true := by
    intro rid c m
    rw [(errorResponse_keys rid c m).1, (errorResponse_keys rid c m).2]
    rfl
  have hsucc : ∀ rid r : PyVal,
      ((hasKey (successResponse rid r) "error").xor
        (hasKey (successResponse rid r) "result")) = true := by
    intro rid r
    rw [(successResponse_keys rid r).1, (successResponse_keys rid r).2]
    rfl
  cases d with
  | error e => exact herr _ _ _
  | ok req =>
    simp only [serverRespond, processRequest]
    split
    · exact herr _ _ _
    · split
      · exact herr _ _ _
      · split
        · exact herr _ _ _
        · split
          · exact herr _ _ _
          · split
            · exact herr _ _ _
            · split
              · exact herr _ _ _
              · exact hsucc _ _

/-- Handler used in the C6 counterexample (a registered method returning a
plain result). -/
def plainResultHandler : String → PyVal → Except String PyVal :=
  fun _ _ => .ok (.dict [("result", .int 1)])

/-- Request whose `params` is a non-object (an empty JSON array). -/
def emptyArrayParamsReq : PyVal :=
  .dict [("id", .int 1), ("method", .str "ping"), ("params", .list [])]

/-- C6 counterexample: the claim says `-32602` is returned "for non-object
params", but a request whose `params` is the empty array — a non-object — is
not rejected: `params and not isinstance(params, dict)` is false for a falsy
value, so the handler runs and a success response is produced with no error
code at all. -/
theorem nonObjectParams_not_rejected :
    (reqParams emptyArrayParamsReq).isDict = false
    ∧ errCodeOf (serverRespond plainResultHandler (.ok emptyArrayParamsReq)) = Option.none
    ∧ hasKey (serverRespond plainResultHandler (.ok emptyArrayParamsReq)) "result" = true :=
  ⟨rfl, rfl, rfl⟩

/-- C6 (amended): for every framed request the RPC server reads it writes
back exactly one response carrying the request's correlation id, holding
exactly one of a result value or an error object `{code, message}`; the
codes are `-32700` for unparseable JSON, `-32600` for a non-object request
or a missing/falsy/non-string method, `-32602` for a *truthy* (non-empty)
non-object params — a falsy non-object params such as the empty array is
treated as absent and replaced by the empty object — `-32603` when the
handler raises, and `-32000` when the handler returns an explicit error
payload, which is how an unregistered method name surfaces through
`PiAgent._handle_rpc`. -/
theorem rpc_response_contract
    (handler inner : String → PyVal → Except String PyVal) :
    (∀ msgs : List (Except String PyVal),
      (msgs.map (serverRespond handler)).length = msgs.length)
    ∧ (∀ d, ((hasKey (serverRespond handler d) "error").xor
        (hasKey (serverRespond handler d) "result")) = true)
    ∧ (∀ d, (serverRespond handler d).getD "id" PyVal.none = requestIdOf d)
    ∧ (∀ e, serverRespond handler (.error e)
        = errorResponse .none (-32700) (.str ("Parse error: " ++ e)))
    ∧ (∀ req, req.isDict = false →
        serverRespond handler (.ok req) = errorResponse .none (-32600) (.str "Invalid Request"))
    ∧ (∀ req, req.isDict = true → truthy (reqMethod req) = false →
        serverRespond handler (.ok req)
          = errorResponse (req.getD "id" PyVal.none) (-32600) (.str "Method required"))
    ∧ (∀ req, req.isDict = true → truthy (reqMethod req) = true → (reqMethod req).isStr = false →
        serverRespond handler (.ok req)
          = errorResponse (req.getD "id" PyVal.none) (-32600) (.str "Method must be string"))
    ∧ (∀ req, req.isDict = true → truthy (reqMethod req) = true → (reqMethod req).isStr = true →
        truthy (reqParams req) = true → (reqParams req).isDict = false →
        serverRespond handler (.ok req)
          = errorResponse (req.getD "id" PyVal.none) (-32602) (.str "Params must be object"))
    ∧ (∀ req e, WellFormedReq req → handler (methodName req) (effParams req) = .error e →
        serverRespond handler (.ok req)
          = errorResponse (req.getD "id" PyVal.none) (-32603) (.str ("Internal error: " ++ e)))
    ∧ (∀ req r, WellFormedReq req → handler (methodName req) (effParams req) = .ok r →
        (r.isDict && hasKey r "error") = true →
        serverRespond handler (.ok req)
          = errorResponse (req.getD "id" PyVal.none) (-32000) (r.getD "error" PyVal.none))
    ∧ (∀ req, WellFormedReq req → agentHandlers.contains (methodName req) = false →
        serverRespond (agentDispatch inner) (.ok req)
          = errorResponse (req.getD "id" PyVal.none) (-32000)
              (.str ("Unknown method: " ++ methodName req))) := by
  refine ⟨fun msgs => List.length_map _ _, serverRespond_xor handler, serverRespond_id handler,
    fun e => rfl, ?_, ?_, ?_, ?_, ?_, ?_, ?_⟩
  · intro req h
    simp [serverRespond, processRequest, h]
  · intro req hd hm
    simp only [reqMethod] at hm
    simp [serverRespond, processRequest, hd, hm]
  · intro req hd hm hs
    simp only [reqMethod] at hm hs
    simp [serverRespond, processRequest, hd, hm, hs]
  · intro req hd hm hs hp hpd
    simp only [reqMethod] at hm hs
    simp only [reqParams] at hp hpd
    simp [serverRespond, processRequest, hd, hm, hs, hp, hpd]
  · intro req e hwf hh
    rw [serverRespond, processRequest_wellFormed handler req hwf, hh]
  · intro req r hwf hh hr
    rw [serverRespond, processRequest_wellFormed handler req hwf, hh]
    simp [hr]
  · intro req hwf hc
    have hmem : methodName req ∉ agentHandlers := by simpa using hc
    rw [serverRespond, processRequest_wellFormed (agentDispatch inner) req hwf]
    simp [agentDispatch, agentHandleRpc, hmem, hasKey, PyVal.getD, PyVal.isDict]

/-- Handler that raises on every call, for the C6 witness. -/
def raisingHandler : String → PyVal → Except String PyVal := fun _ _ => .error "boom"

/-- Witness for C6 at a concrete well-formed request whose handler raises:
the response is `-32603` with message `Internal error: boom` and the
request's id `7`. -/
theorem rpc_response_contract_witness :
    WellFormedReq (PyVal.dict [("id", .int 7), ("method", .str "x")])
    ∧ serverRespond raisingHandler (.ok (PyVal.dict [("id", .int 7), ("method", .str "x")]))
        = errorResponse (.int 7) (-32603) (.str "Internal error: boom") := by
  have hwf : WellFormedReq (PyVal.dict [("id", .int 7), ("method", .str "x")]) :=
    ⟨rfl, rfl, rfl, Or.inl rfl⟩
  exact ⟨hwf,
    (rpc_response_contract raisingHandler raisingHandler).2.2.2.2.2.2.2.2.1 _ "boom" hwf rfl⟩

/-!
## Job phase executor (`src/agent/jobs/runner.py`, `JobRunner._execute_job`)

A capability (the job handler `_get_handler` resolves; the business logic
behind it is pluggable) is modelled by the outcome of each of its phase
coroutines: a duration (to decide `asyncio.wait_for` timeouts) and either a
returned `PyVal` or a raised exception's message.  `verify` receives
execute's result, `rollback` receives the snapshot, exactly as in the
source.  The executor returns the final mutation of the `Job` record plus
the number of calls made to each phase and the arguments rollback was
invoked with.
-/

/-- The six values of the `JobState` enum. -/
inductive JobState where
  | pending
  | running
  | completed
  | failed
  | rolledBack
  | cancelled
deriving DecidableEq

/-- The `value` string of a `JobState` member. -/
def JobState.value : JobState → String
  | .pending => "pending"
  | .running => "running"
  | .completed => "completed"
  | .failed => "failed"
  | .rolledBack => "rolled_back"
  | .cancelled => "cancelled"

/-- Terminal states: Completed, Failed, RolledBack, Cancelled. -/
def JobState.isTerminal : JobState → Bool
  | .completed => true
  | .failed => true
  | .rolledBack => true
  | .cancelled => true
  | _ => false

/-- One awaited phase coroutine: how long it runs and what it produces
(`Except.error` = the message of a raised exception). -/
structure PhaseRun where
  duration : Nat
  result : Except String PyVal

/-- The `timeout` argument handed to `asyncio.wait_for` (`never` models
`timeout=None`). -/
inductive TimeoutSpec where
  | never
  | after : Int → TimeoutSpec

/-- Outcome of `JobRunner._run_with_timeout`: `asyncio.wait_for` raises
`TimeoutError` when the timeout is non-positive or the coroutine outlasts
it; otherwise the coroutine's own outcome stands. -/
inductive PhaseOut where
  | timeout
  | exn : String → PhaseOut
  | ok : PyVal → PhaseOut

/-- `_run_with_timeout` (it re-raises `TimeoutError` after logging). -/
def runWithTimeout (p : PhaseRun) (t : TimeoutSpec) : PhaseOut :=
  match t with
  | .never =>
    match p.result with
    | .ok v => .ok v
    | .error m => .exn m
  | .after t =>
    if t ≤ 0 then .timeout
    else if (p.duration : Int) > t then .timeout
    else
      match p.result with
      | .ok v => .ok v
      | .error m => .exn m

/-- A resolved job handler: `precheck` and `execute` always exist;
`snapshot`, `verify` and `rollback` exist exactly when
`hasattr(handler, ...)` holds (`Option.isSome`). -/
structure Capability where
  precheck : PhaseRun
  snapshot : Option PhaseRun
  execute : PhaseRun
  verify : Option (PyVal → PhaseRun)
  rollback : Option (PyVal → PhaseRun)

/-- How many times each capability operation was invoked during one
`_execute_job` run. -/
structure PhaseCalls where
  precheck : Nat
  snapshot : Nat
  execute : Nat
  verify : Nat
  rollback : Nat

/-- No phase invoked yet. -/
def noCalls : PhaseCalls := ⟨0, 0, 0, 0, 0⟩

/-- The job-record mutation `_execute_job` leaves behind: final `state`,
`result`, `error`, whether `started_at`/`completed_at` were stamped, the
per-phase invocation counts and the values rollback was called with. -/
structure ExecResult where
  state : JobState
  result : Option PyVal
  error : Option String
  startedAt : Bool
  completedAt : Bool
  calls : PhaseCalls
  rollbackArgs : List PyVal

/-- An exceptional exit: `except` sets `state = FAILED` and
`error = str(e)` (or `"Job timed out"`), `finally` stamps `completed_at`. -/
def failedExit (msg : String) (calls : PhaseCalls) (rbArgs : List PyVal) : ExecResult :=
  ⟨.failed, Option.none, some msg, true, true, calls, rbArgs⟩

/-- The success exit: `state = COMPLETED`, `result` set to execute's return
value, no error recorded. -/
def completedExit (res : PyVal) (calls : PhaseCalls) : ExecResult :=
  ⟨.completed, some res, Option.none, true, true, calls, []⟩

/-- `job.config.get("timeout", self._default_timeout)` as a wait_for
timeout: absent → the global default; an int (or bool, ints in Python) →
that value; `None` → no timeout; any other type makes `asyncio.wait_for`
raise a `TypeError`, caught by the executor's `except Exception`. -/
def configTimeout (cfg : List (String × PyVal)) (dflt : Int) : Except String TimeoutSpec :=
  match (cfg.find? (fun p => p.1 == "timeout")).map Prod.snd with
  | Option.none => .ok (.after dflt)
  | some (.int n) => .ok (.after n)
  | some (.bool b) => .ok (.after (if b then 1 else 0))
  | some .none => .ok .never
  | some _ => .error "TypeError: timeout must be a number"

/-- Phases 3-5 of `_execute_job` (execute → optional verify →
rollback-or-success), entered with the snapshot value in hand (`PyVal.none`
when no snapshot attribute exists, mirroring `snapshot = None`). -/
def execFromExecute (h : Capability) (cfg : List (String × PyVal)) (dflt : Int)
    (snap : PyVal) (calls : PhaseCalls) : ExecResult :=
  match configTimeout cfg dflt with
  | .error m => failedExit m { calls with execute := 1 } []
  | .ok tspec =>
    let calls := { calls with execute := 1 }
    match runWithTimeout h.execute tspec with
    | .timeout => failedExit "Job timed out" calls []
    | .exn m => failedExit m calls []
    | .ok res =>
      match h.verify with
      | Option.none => completedExit res calls
      | some vf =>
        let calls := { calls with verify := 1 }
        match runWithTimeout (vf res) (.after 60) with
        | .timeout => failedExit "Job timed out" calls []
        | .exn m => failedExit m calls []
        | .ok vres =>
          match pyGetExc vres "passed" (.bool true) with
          | .error m => failedExit m calls []
          | .ok passed =>
            if truthy passed then completedExit res calls
            else
              match h.rollback with
              | some rb =>
                if truthy snap then
                  let calls := { calls with rollback := 1 }
                  match (rb snap).result with
                  | .ok _ =>
                    ⟨.rolledBack, Option.none,
                      some ("Verification failed: " ++ pyStr (vres.getD "reason" (.str "Unknown"))),
                      true, true, calls, [snap]⟩
                  | .error m => failedExit m calls [snap]
                else completedExit res calls
              | Option.none => completedExit res calls

/-- `JobRunner._execute_job` for a job of type `jtype` with config `cfg`:
sets `state = RUNNING` and `started_at`, resolves the handler (`none`
models `_get_handler` returning no handler, which raises
`ValueError("Unknown job type: ...")`), then runs precheck (60s budget),
optional snapshot (300s), execute (config override or the global default),
optional verify (60s) and rollback-or-success; `except`/`finally` behave as
in the source. -/
def executeJob (handler : Option Capability) (jtype : String)
    (cfg : List (String × PyVal)) (dflt : Int) : ExecResult :=
  match handler with
  | Option.none => failedExit ("Unknown job type: " ++ jtype) noCalls []
  | some h =>
    let calls := { noCalls with precheck := 1 }
    match runWithTimeout h.precheck (.after 60) with
    | .timeout => failedExit "Job timed out" calls []
    | .exn m => failedExit m calls []
    | .ok pv =>
      match pyGetExc pv "passed" (.bool false) with
      | .error m => failedExit m calls []
      | .ok passed =>
        if !truthy passed then
          match pyGetExc pv "reason" (.str "Unknown") with
          | .error m => failedExit m calls []
          | .ok reason => failedExit ("Precheck failed: " ++ pyStr reason) calls []
        else
          match h.snapshot with
          | Option.none => execFromExecute h cfg dflt PyVal.none calls
          | some sp =>
            let calls := { calls with snapshot := 1 }
            match runWithTimeout sp (.after 300) with
            | .timeout => failedExit "Job timed out" calls []
            | .exn m => failedExit m calls []
            | .ok sv => execFromExecute h cfg dflt sv calls

theorem runWithTimeout_ok_of (p : PhaseRun) (t : Int) (v : PyVal)
    (h1 : 0 < t) (h2 : (p.duration : Int) ≤ t) (hv : p.result = .ok v) :
    runWithTimeout p (.after t) = .ok v := by
  rw [runWithTimeout, if_neg (by omega), if_neg (by omega), hv]

theorem runWithTimeout_timeout_of (p : PhaseRun) (t : Int)
    (h : t < (p.duration : Int)) :
    runWithTimeout p (.after t) = .timeout := by
  rw [runWithTimeout]
  by_cases h0 : t ≤ 0
  · rw [if_pos h0]
  · rw [if_neg h0, if_pos (by omega)]

theorem executeJob_nosnap (h : Capability) (jtype : String)
    (cfg : List (String × PyVal)) (dflt : Int) (pv : PyVal)
    (hpd : h.precheck.duration ≤ 60) (hpv : h.precheck.result = .ok pv)
    (hpvd : pv.isDict = true)
    (hpass : truthy (pv.getD "passed" (.bool false)) = true)
    (hs : h.snapshot = Option.none) :
    executeJob (some h) jtype cfg dflt
      = execFromExecute h cfg dflt PyVal.none { noCalls with precheck := 1 } := by
  have hok := runWithTimeout_ok_of h.precheck 60 pv (by norm_num) (by exact_mod_cast hpd) hpv
  simp only [executeJob]
  rw [hok]
  simp [pyGetExc, hpvd, hpass, hs]

theorem executeJob_snap (h : Capability) (jtype : String)
    (cfg : List (String × PyVal)) (dflt : Int) (pv : PyVal) (sp : PhaseRun) (sv : PyVal)
    (hpd : h.precheck.duration ≤ 60) (hpv : h.precheck.result = .ok pv)
    (hpvd : pv.isDict = true)
    (hpass : truthy (pv.getD "passed" (.bool false)) = true)
    (hs : h.snapshot = some sp) (hspd : sp.duration ≤ 300) (hsv : sp.result = .ok sv) :
    executeJob (some h) jtype cfg dflt
      = execFromExecute h cfg dflt sv ⟨1, 1, 0, 0, 0⟩ := by
  have hok := runWithTimeout_ok_of h.precheck 60 pv (by norm_num) (by exact_mod_cast hpd) hpv
  have hok2 := runWithTimeout_ok_of sp 300 sv (by norm_num) (by exact_mod_cast hspd) hsv
  simp only [executeJob]
  rw [hok]
  simp only [pyGetExc, hpvd, if_true, hpass, Bool.not_true, Bool.false_eq_true, if_false, hs]
  rw [hok2]
  rfl

/-- C2: when the precheck phase reports not-passed (its returned dict's
`passed` entry is falsy, or absent) or outruns its 60-second budget, the job
ends Failed with the precheck-derived error — `Precheck failed: <reason>`
capturing the precheck's reason, or `Job timed out` — and the capability's
execute, verify and rollback operations are never invoked. -/
theorem precheck_refusal_fails_without_later_phases
    (h : Capability) (jtype : String) (cfg : List (String × PyVal)) (dflt : Int)
    (href : 60 < h.precheck.duration
      ∨ (h.precheck.duration ≤ 60 ∧ ∃ v, h.precheck.result = .ok v ∧ v.isDict = true
          ∧ truthy (v.getD "passed" (.bool false)) = false)) :
    (executeJob (some h) jtype cfg dflt).state = .failed
    ∧ (executeJob (some h) jtype cfg dflt).calls.execute = 0
    ∧ (executeJob (some h) jtype cfg dflt).calls.verify = 0
    ∧ (executeJob (some h) jtype cfg dflt).calls.rollback = 0
    ∧ ((60 < h.precheck.duration
        ∧ (executeJob (some h) jtype cfg dflt).error = some "Job timed out")
      ∨ ∃ v, h.precheck.result = .ok v
          ∧ (executeJob (some h) jtype cfg dflt).error
              = some ("Precheck failed: " ++ pyStr (v.getD "reason" (.str "Unknown")))) := by
  rcases href with hto | ⟨hle, v, hv, hdict, hpass⟩
  · have ht := runWithTimeout_timeout_of h.precheck 60 (by exact_mod_cast hto)
    simp only [executeJob]
    rw [ht]
    exact ⟨rfl, rfl, rfl, rfl, Or.inl ⟨hto, rfl⟩⟩
  · have hok := runWithTimeout_ok_of h.precheck 60 v (by norm_num) (by exact_mod_cast hle) hv
    simp only [executeJob]
    rw [hok]
    simp only [pyGetExc, hdict, if_true, hpass, Bool.not_false, if_pos]
    exact ⟨rfl, rfl, rfl, rfl, Or.inr ⟨v, hv, rfl⟩⟩

/-- Capability whose precheck reports not-passed, used in the C2 witness. -/
def capPrecheckFail : Capability :=
  ⟨⟨1, .ok (.dict [("passed", .bool false), ("reason", .str "disk full")])⟩,
    Option.none, ⟨0, .ok .none⟩, Option.none, Option.none⟩

/-- Witness for C2 at a concrete capability whose precheck returns
`{"passed": False, "reason": "disk full"}`. -/
theorem precheck_refusal_witness :
    (executeJob (some capPrecheckFail) "cleanup" [] 600).state = .failed
    ∧ (executeJob (some capPrecheckFail) "cleanup" [] 600).calls.execute = 0
    ∧ (executeJob (some capPrecheckFail) "cleanup" [] 600).calls.verify = 0
    ∧ (executeJob (some capPrecheckFail) "cleanup" [] 600).calls.rollback = 0
    ∧ ((60 < capPrecheckFail.precheck.duration
        ∧ (executeJob (some capPrecheckFail) "cleanup" [] 600).error = some "Job timed out")
      ∨ ∃ v, capPrecheckFail.precheck.result = .ok v
          ∧ (executeJob (some capPrecheckFail) "cleanup" [] 600).error
              = some ("Precheck failed: " ++ pyStr (v.getD "reason" (.str "Unknown")))) :=
  precheck_refusal_fails_without_later_phases capPrecheckFail "cleanup" [] 600
    (Or.inr ⟨by decide, ⟨.dict [("passed", .bool false), ("reason", .str "disk full")],
      rfl, rfl, rfl⟩⟩)

/-- C4: when the execute phase outlasts its effective timeout — the job's
`config["timeout"]` override, or the runner's default — the job ends Failed
with error `Job timed out`, execute was invoked, and neither verify nor
rollback is ever called. -/
theorem execute_timeout_fails_without_verify
    (h : Capability) (jtype : String) (cfg : List (String × PyVal)) (dflt : Int)
    (pv : PyVal) (t : Int)
    (hpd : h.precheck.duration ≤ 60) (hpv : h.precheck.result = .ok pv)
    (hpvd : pv.isDict = true)
    (hpass : truthy (pv.getD "passed" (.bool false)) = true)
    (hsnap : ∀ sp, h.snapshot = some sp → sp.duration ≤ 300 ∧ ∃ sv, sp.result = .ok sv)
    (ht : configTimeout cfg dflt = .ok (.after t))
    (hto : t < (h.execute.duration : Int)) :
    (executeJob (some h) jtype cfg dflt).state = .failed
    ∧ (executeJob (some h) jtype cfg dflt).error = some "Job timed out"
    ∧ (executeJob (some h) jtype cfg dflt).calls.execute = 1
    ∧ (executeJob (some h) jtype cfg dflt).calls.verify = 0
    ∧ (executeJob (some h) jtype cfg dflt).calls.rollback = 0 := by
  have hexec := runWithTimeout_timeout_of h.execute t hto
  cases hsopt : h.snapshot with
  | none =>
    rw [executeJob_nosnap h jtype cfg dflt pv hpd hpv hpvd hpass hsopt]
    simp only [execFromExecute, ht, hexec]
    exact ⟨rfl, rfl, rfl, rfl, rfl⟩
  | some sp =>
    obtain ⟨hspd, sv, hsv⟩ := hsnap sp hsopt
    rw [executeJob_snap h jtype cfg dflt pv sp sv hpd hpv hpvd hpass hsopt hspd hsv]
    simp only [execFromExecute, ht, hexec]
    exact ⟨rfl, rfl, rfl, rfl, rfl⟩

/-- Capability whose execute takes 100 time units, used in the C4 witness. -/
def capSlowExecute : Capability :=
  ⟨⟨1, .ok (.dict [("passed", .bool true)])⟩,
    some ⟨2, .ok (.dict [("prev", .int 3)])⟩,
    ⟨100, .ok .none⟩, Option.none, Option.none⟩

/-- Witness for C4: a job-specific `timeout: 5` override is exceeded by an
execute of duration 100. -/
theorem execute_timeout_witness :
    (executeJob (some capSlowExecute) "backup" [("timeout", .int 5)] 600).state = .failed
    ∧ (executeJob (some capSlowExecute) "backup" [("timeout", .int 5)] 600).error
        = some "Job timed out"
    ∧ (executeJob (some capSlowExecute) "backup" [("timeout", .int 5)] 600).calls.execute = 1
    ∧ (executeJob (some capSlowExecute) "backup" [("timeout", .int 5)] 600).calls.verify = 0
    ∧ (executeJob (some capSlowExecute) "backup" [("timeout", .int 5)] 600).calls.rollback = 0 :=
  execute_timeout_fails_without_verify capSlowExecute "backup" [("timeout", .int 5)] 600
    (.dict [("passed", .bool true)]) 5 (by decide) rfl rfl rfl
    (by
      intro sp hsp
      simp only [capSlowExecute] at hsp
      cases hsp
      exact ⟨by decide, ⟨_, rfl⟩⟩)
    rfl (by decide)

/-- Capability that takes a (truthy) snapshot and fails verify but does not
implement rollback — the C3 counterexample. -/
def capVerifyFailNoRb : Capability :=
  ⟨⟨1, .ok (.dict [("passed", .bool true)])⟩,
    some ⟨1, .ok (.dict [("prev", .int 3)])⟩,
    ⟨1, .ok (.str "res")⟩,
    some (fun _ => ⟨1, .ok (.dict [("passed", .bool false), ("reason", .str "bad checksum")])⟩),
    Option.none⟩

/-- C3 counterexample: a job that took a (truthy) snapshot and whose verify
reports not-passed, but whose capability does not implement rollback —
contrary to the claim, rollback is invoked zero times (not once), the final
state is Completed (not RolledBack), and Execute's result IS kept in the
job's result field. -/
theorem snapshot_verify_fail_no_rollback_counterexample :
    capVerifyFailNoRb.snapshot.isSome = true
    ∧ (executeJob (some capVerifyFailNoRb) "update" [] 600).state = .completed
    ∧ (executeJob (some capVerifyFailNoRb) "update" [] 600).state ≠ .rolledBack
    ∧ (executeJob (some capVerifyFailNoRb) "update" [] 600).calls.rollback = 0
    ∧ (executeJob (some capVerifyFailNoRb) "update" [] 600).result = some (.str "res") :=
  ⟨rfl, rfl, by decide, rfl, rfl⟩

/-- C3 (amended): for a job whose snapshot phase returned a truthy value,
whose verify reports not-passed, and whose capability implements rollback
(with the rollback call itself returning rather than raising): rollback is
invoked exactly once with the snapshot value, the final state is RolledBack,
the job's error records the verify failure reason, and Execute's result is
discarded — the result field stays unset. -/
theorem rollback_on_failed_verify
    (h : Capability) (jtype : String) (cfg : List (String × PyVal)) (dflt : Int)
    (pv : PyVal) (sp : PhaseRun) (sv : PyVal) (t : Int) (ev : PyVal)
    (vf : PyVal → PhaseRun) (vv : PyVal) (rb : PyVal → PhaseRun) (rv : PyVal)
    (hpd : h.precheck.duration ≤ 60) (hpv : h.precheck.result = .ok pv)
    (hpvd : pv.isDict = true)
    (hpass : truthy (pv.getD "passed" (.bool false)) = true)
    (hsp : h.snapshot = some sp) (hspd : sp.duration ≤ 300)
    (hsv : sp.result = .ok sv) (hsvt : truthy sv = true)
    (ht : configTimeout cfg dflt = .ok (.after t)) (ht0 : 0 < t)
    (hed : (h.execute.duration : Int) ≤ t) (hev : h.execute.result = .ok ev)
    (hvf : h.verify = some vf) (hvd : (vf ev).duration ≤ 60)
    (hvv : (vf ev).result = .ok vv) (hvvd : vv.isDict = true)
    (hvfail : truthy (vv.getD "passed" (.bool true)) = false)
    (hrb : h.rollback = some rb) (hrv : (rb sv).result = .ok rv) :
    (executeJob (some h) jtype cfg dflt).state = .rolledBack
    ∧ (executeJob (some h) jtype cfg dflt).calls.rollback = 1
    ∧ (executeJob (some h) jtype cfg dflt).rollbackArgs = [sv]
    ∧ (executeJob (some h) jtype cfg dflt).error
        = some ("Verification failed: " ++ pyStr (vv.getD "reason" (.str "Unknown")))
    ∧ (executeJob (some h) jtype cfg dflt).result = Option.none := by
  rw [executeJob_snap h jtype cfg dflt pv sp sv hpd hpv hpvd hpass hsp hspd hsv]
  have hexec := runWithTimeout_ok_of h.execute t ev ht0 hed hev
  have hver := runWithTimeout_ok_of (vf ev) 60 vv (by norm_num) (by exact_mod_cast hvd) hvv
  simp only [execFromExecute, ht, hexec, hvf, hver, pyGetExc, hvvd, if_true, hvfail,
    Bool.false_eq_true, if_false, hrb, hsvt, hrv]
  exact ⟨trivial, trivial, trivial, trivial, trivial⟩

/-- Capability with snapshot, failing verify and a working rollback, used in
the witness for the amended C3. -/
def capFullRollback : Capability :=
  ⟨⟨1, .ok (.dict [("passed", .bool true)])⟩,
    some ⟨1, .ok (.dict [("prev", .int 3)])⟩,
    ⟨1, .ok (.str "new-config")⟩,
    some (fun _ => ⟨1, .ok (.dict [("passed", .bool false), ("reason", .str "bad checksum")])⟩),
    some (fun _ => ⟨1, .ok .none⟩)⟩

/-- Witness for the amended C3 at `capFullRollback`. -/
theorem rollback_on_failed_verify_witness :
    (executeJob (some capFullRollback) "update" [] 600).state = .rolledBack
    ∧ (executeJob (some capFullRollback) "update" [] 600).calls.rollback = 1
    ∧ (executeJob (some capFullRollback) "update" [] 600).rollbackArgs
        = [.dict [("prev", .int 3)]]
    ∧ (executeJob (some capFullRollback) "update" [] 600).error
        = some ("Verification failed: "
            ++ pyStr ((PyVal.dict [("passed", .bool false), ("reason", .str "bad checksum")]).getD
                "reason" (.str "Unknown")))
    ∧ (executeJob (some capFullRollback) "update" [] 600).result = Option.none :=
  rollback_on_failed_verify capFullRollback "update" [] 600
    (.dict [("passed", .bool true)]) ⟨1, .ok (.dict [("prev", .int 3)])⟩
    (.dict [("prev", .int 3)]) 600 (.str "new-config")
    (fun _ => ⟨1, .ok (.dict [("passed", .bool false), ("reason", .str "bad checksum")])⟩)
    (.dict [("passed", .bool false), ("reason", .str "bad checksum")])
    (fun _ => ⟨1, .ok .none⟩) .none
    (by decide) rfl rfl rfl rfl (by decide) rfl rfl rfl (by decide) (by decide) rfl
    rfl (by decide) rfl rfl rfl rfl rfl

/-- C10: when verify reports not-passed but either no snapshot phase exists
(so `snapshot` stayed `None`) or the capability implements no rollback, the
executor falls through to the success branch: the job completes with
Execute's return value as its result, no error recorded and no rollback
call. -/
theorem verify_fail_without_rollback_completes
    (h : Capability) (jtype : String) (cfg : List (String × PyVal)) (dflt : Int)
    (pv : PyVal) (t : Int) (ev : PyVal) (vf : PyVal → PhaseRun) (vv : PyVal)
    (hpd : h.precheck.duration ≤ 60) (hpv : h.precheck.result = .ok pv)
    (hpvd : pv.isDict = true)
    (hpass : truthy (pv.getD "passed" (.bool false)) = true)
    (hsnap : h.snapshot = Option.none
      ∨ ∃ sp sv, h.snapshot = some sp ∧ sp.duration ≤ 300 ∧ sp.result = .ok sv)
    (ht : configTimeout cfg dflt = .ok (.after t)) (ht0 : 0 < t)
    (hed : (h.execute.duration : Int) ≤ t) (hev : h.execute.result = .ok ev)
    (hvf : h.verify = some vf) (hvd : (vf ev).duration ≤ 60)
    (hvv : (vf ev).result = .ok vv) (hvvd : vv.isDict = true)
    (hvfail : truthy (vv.getD "passed" (.bool true)) = false)
    (hnorb : h.snapshot = Option.none ∨ h.rollback = Option.none) :
    (executeJob (some h) jtype cfg dflt).state = .completed
    ∧ (executeJob (some h) jtype cfg dflt).result = some ev
    ∧ (executeJob (some h) jtype cfg dflt).error = Option.none
    ∧ (executeJob (some h) jtype cfg dflt).calls.rollback = 0 := by
  have hexec := runWithTimeout_ok_of h.execute t ev ht0 hed hev
  have hver := runWithTimeout_ok_of (vf ev) 60 vv (by norm_num) (by exact_mod_cast hvd) hvv
  rcases hsnap with hsnone | ⟨sp, sv, hsp, hspd, hsv⟩
  · rw [executeJob_nosnap h jtype cfg dflt pv hpd hpv hpvd hpass hsnone]
    cases hrb : h.rollback with
    | none =>
      simp only [execFromExecute, ht, hexec, hvf, hver, pyGetExc, hvvd, if_true, hvfail,
        Bool.false_eq_true, if_false, hrb]
      exact ⟨rfl, rfl, rfl, rfl⟩
    | some rb =>
      simp only [execFromExecute, ht, hexec, hvf, hver, pyGetExc, hvvd, if_true, hvfail,
        Bool.false_eq_true, if_false, hrb, show truthy PyVal.none = false from rfl]
      exact ⟨rfl, rfl, rfl, rfl⟩
  · rcases hnorb with hno | hno
    · rw [hsp] at hno
      exact absurd hno (by simp)
    · rw [executeJob_snap h jtype cfg dflt pv sp sv hpd hpv hpvd hpass hsp hspd hsv]
      simp only [execFromExecute, ht, hexec, hvf, hver, pyGetExc, hvvd, if_true, hvfail,
        Bool.false_eq_true, if_false, hno]
      exact ⟨rfl, rfl, rfl, rfl⟩

/-- Capability with failing verify and no snapshot, used in the C10
witness. -/
def capNoSnapshot : Capability :=
  ⟨⟨1, .ok (.dict [("passed", .bool true)])⟩,
    Option.none,
    ⟨1, .ok (.dict [("freed_mb", .int 120)])⟩,
    some (fun _ => ⟨1, .ok (.dict [("passed", .bool false), ("reason", .str "mismatch")])⟩),
    some (fun _ => ⟨1, .ok .none⟩)⟩

/-- Witness for C10 at `capNoSnapshot` (rollback exists but no snapshot was
taken, so the job completes anyway). -/
theorem verify_fail_without_rollback_completes_witness :
    (executeJob (some capNoSnapshot) "cleanup" [] 600).state = .completed
    ∧ (executeJob (some capNoSnapshot) "cleanup" [] 600).result
        = some (.dict [("freed_mb", .int 120)])
    ∧ (executeJob (some capNoSnapshot) "cleanup" [] 600).error = Option.none
    ∧ (executeJob (some capNoSnapshot) "cleanup" [] 600).calls.rollback = 0 :=
  verify_fail_without_rollback_completes capNoSnapshot "cleanup" [] 600
    (.dict [("passed", .bool true)]) 600 (.dict [("freed_mb", .int 120)])
    (fun _ => ⟨1, .ok (.dict [("passed", .bool false), ("reason", .str "mismatch")])⟩)
    (.dict [("passed", .bool false), ("reason", .str "mismatch")])
    (by decide) rfl rfl rfl (Or.inl rfl) rfl (by decide) (by decide) rfl rfl (by decide)
    rfl rfl rfl (Or.inl rfl)

/-!
## Job store, queue and worker pool
(`JobRunner.run_job` / `_worker_loop` / `_execute_job` entry / `cancel_job`)

The interleaving of the runner's coroutines is modelled as a step relation
on the shared state: the `_jobs` store (association list with the entry's
`state` and whether `started_at`/`completed_at` are set), the `_queue` of
job ids, and one slot per worker holding the id the worker is currently
executing.  Each step is one of the store mutations the source performs
between `await` points:

* `runJob` — `run_job` stores a Pending record and enqueues its id (ids
  come from `uuid4`, hence the freshness premise);
* `claimJob` — a worker dequeues an id, finds the job and enters
  `_execute_job`, which immediately sets `state = RUNNING` and `started_at`;
* `skipJob` — a worker dequeues an id with no stored job and continues;
* `finishJob` — `_execute_job` ends, writing one of the three
  executor-terminal states and stamping `completed_at` (the worker becomes
  idle again);
* `cancelJob` — `cancel_job` finds the job and unconditionally sets
  `state = CANCELLED` and `completed_at`; `_running_jobs` is never populated
  by the source, so no task is actually interrupted, and the queue is not
  purged.
-/

/-- One `_jobs` entry: its state and whether `started_at`/`completed_at`
have been stamped. -/
structure JobEntry where
  state : JobState
  startedAt : Bool
  completedAt : Bool
deriving DecidableEq

/-- `self._jobs.get(job_id)`. -/
def jget (l : List (String × JobEntry)) (id : String) : Option JobEntry :=
  (l.find? (fun p => p.1 == id)).map Prod.snd

/-- In-place mutation of the stored record (the `Job` object is shared, so
updating it is updating the store's entry). -/
def jset (l : List (String × JobEntry)) (id : String) (e : JobEntry) :
    List (String × JobEntry) :=
  l.map (fun p => if p.1 == id then (p.1, e) else p)

/-- The runner's shared state: job store, queue, and each worker's
currently-executing job id. -/
structure Sys where
  jobs : List (String × JobEntry)
  queue : List String
  workers : List (Option String)

/-- The state after `start()` with `max_concurrent = n`: no jobs, empty
queue, `n` idle workers. -/
def initSys (n : Nat) : Sys := ⟨[], [], List.replicate n Option.none⟩

/-- One atomic store mutation of the runner. -/
inductive Step : Sys → Sys → Prop where
  | runJob (s : Sys) (id : String) (hfresh : jget s.jobs id = Option.none) :
      Step s ⟨(id, ⟨.pending, false, false⟩) :: s.jobs, s.queue ++ [id], s.workers⟩
  | claimJob (s : Sys) (w : Nat) (id : String) (rest : List String) (e : JobEntry)
      (hq : s.queue = id :: rest) (hw : s.workers.get? w = some Option.none)
      (hj : jget s.jobs id = some e) :
      Step s ⟨jset s.jobs id ⟨.running, true, e.completedAt⟩, rest, s.workers.set w (some id)⟩
  | skipJob (s : Sys) (w : Nat) (id : String) (rest : List String)
      (hq : s.queue = id :: rest) (hw : s.workers.get? w = some Option.none)
      (hj : jget s.jobs id = Option.none) :
      Step s ⟨s.jobs, rest, s.workers⟩
  | finishJob (s : Sys) (w : Nat) (id : String) (t : JobState) (e : JobEntry)
      (hw : s.workers.get? w = some (some id)) (hj : jget s.jobs id = some e)
      (ht : t = .completed ∨ t = .failed ∨ t = .rolledBack) :
      Step s ⟨jset s.jobs id ⟨t, e.startedAt, true⟩, s.queue, s.workers.set w Option.none⟩
  | cancelJob (s : Sys) (id : String) (e : JobEntry) (hj : jget s.jobs id = some e) :
      Step s ⟨jset s.jobs id ⟨.cancelled, e.startedAt, true⟩, s.queue, s.workers⟩

/-- States reachable from a freshly started runner with `n` workers. -/
inductive Reachable (n : Nat) : Sys → Prop where
  | init : Reachable n (initSys n)
  | step {s t : Sys} : Reachable n s → Step s t → Reachable n t

/-- Number of jobs currently in the Running state. -/
def countRunning (s : Sys) : Nat :=
  (s.jobs.filter (fun p => p.2.state == JobState.running)).length

/-- The inductive invariant: store keys are distinct, the worker list keeps
its length, and every Running job is held by some worker. -/
def SysInv (n : Nat) (s : Sys) : Prop :=
  (s.jobs.map Prod.fst).Nodup ∧ s.workers.length = n ∧
    ∀ p ∈ s.jobs, p.2.state = .running → ∃ w, s.workers.get? w = some (some p.1)

theorem jset_keys (l : List (String × JobEntry)) (id : String) (e : JobEntry) :
    (jset l id e).map Prod.fst = l.map Prod.fst := by
  induction l with
  | nil => rfl
  | cons p l ih =>
    simp only [jset, List.map_cons] at ih ⊢
    by_cases h : p.1 == id
    · rw [if_pos h, ih]
    · rw [if_neg h, ih]

theorem mem_jset (l : List (String × JobEntry)) (id : String) (e : JobEntry)
    (p : String × JobEntry) (hp : p ∈ jset l id e) :
    ∃ q ∈ l, p = if q.1 == id then (q.1, e) else q := by
  unfold jset at hp
  obtain ⟨q, hq, hqe⟩ := List.mem_map.mp hp
  exact ⟨q, hq, hqe.symm⟩

theorem sysInv_preserved {s t : Sys} (n : Nat) (hinv : SysInv n s) (hstep : Step s t) :
    SysInv n t := by
  obtain ⟨hnd, hlen, hrun⟩ := hinv
  cases hstep with
  | runJob id hfresh =>
    refine ⟨?_, hlen, ?_⟩
    · simp only [List.map_cons]
      refine List.nodup_cons.mpr ⟨?_, hnd⟩
      intro hmem
      obtain ⟨p, hp, hpe⟩ := List.mem_map.mp hmem
      have hfind : s.jobs.find? (fun q => q.1 == id) = Option.none := by
        have hf := hfresh
        unfold jget at hf
        exact Option.map_eq_none'.mp hf
      exact List.find?_eq_none.mp hfind p hp (by simp [hpe])
    · intro p hp hrunning
      rcases List.mem_cons.mp hp with h | h
      · subst h; simp at hrunning
      · exact hrun p h hrunning
  | claimJob w id rest e hq hw hj =>
    have hwlt : w < s.workers.length := by
      by_contra hge
      rw [List.get?_eq_none.mpr (by omega)] at hw
      exact Option.noConfusion hw
    refine ⟨by rw [jset_keys]; exact hnd, by simpa using hlen, ?_⟩
    intro p hp hrunning
    obtain ⟨q, hq2, hpe⟩ := mem_jset _ _ _ p hp
    by_cases hqid : q.1 == id
    · refine ⟨w, ?_⟩
      rw [if_pos hqid] at hpe
      have hpid : p.1 = id := by rw [hpe]; simpa using hqid
      rw [hpid, List.get?_set_eq_of_lt _ hwlt]
    · rw [if_neg hqid] at hpe
      subst hpe
      obtain ⟨w2, hw2⟩ := hrun p hq2 hrunning
      refine ⟨w2, ?_⟩
      have hne : w2 ≠ w := by
        intro hcontra
        rw [hcontra, hw] at hw2
        simp at hw2
      rw [List.get?_set_ne _ _ (Ne.symm hne)]
      exact hw2
  | skipJob w id rest hq hw hj =>
    exact ⟨hnd, hlen, hrun⟩
  | finishJob w id t2 e hw hj ht =>
    have hwlt : w < s.workers.length := by
      by_contra hge
      rw [List.get?_eq_none.mpr (by omega)] at hw
      exact Option.noConfusion hw
    refine ⟨by rw [jset_keys]; exact hnd, by simpa using hlen, ?_⟩
    intro p hp hrunning
    obtain ⟨q, hq2, hpe⟩ := mem_jset _ _ _ p hp
    by_cases hqid : q.1 == id
    · rw [if_pos hqid] at hpe
      rw [hpe] at hrunning
      simp only at hrunning
      rcases ht with h | h | h <;> rw [h] at hrunning <;> exact absurd hrunning (by simp)
    · rw [if_neg hqid] at hpe
      subst hpe
      obtain ⟨w2, hw2⟩ := hrun p hq2 hrunning
      refine ⟨w2, ?_⟩
      have hne : w2 ≠ w := by
        intro hcontra
        rw [hcontra, hw] at hw2
        have hid : id = p.1 := by
          injection hw2 with h1
          injection h1
        exact hqid (by rw [hid]; simp)
      rw [List.get?_set_ne _ _ (Ne.symm hne)]
      exact hw2
  | cancelJob id e hj =>
    refine ⟨by rw [jset_keys]; exact hnd, hlen, ?_⟩
    intro p hp hrunning
    obtain ⟨q, hq2, hpe⟩ := mem_jset _ _ _ p hp
    by_cases hqid : q.1 == id
    · rw [if_pos hqid] at hpe
      rw [hpe] at hrunning
      exact absurd hrunning (by simp)
    · rw [if_neg hqid] at hpe
      subst hpe
      exact hrun p hq2 hrunning

theorem countRunning_le (n : Nat) (s : Sys) (hinv : SysInv n s) : countRunning s ≤ n := by
  obtain ⟨hnd, hlen, hrun⟩ := hinv
  have hsub : ((s.jobs.filter (fun p => p.2.state == JobState.running)).map Prod.fst)
      ⊆ s.workers.reduceOption := by
    intro a ha
    obtain ⟨p, hp, hpe⟩ := List.mem_map.mp ha
    have hpj : p ∈ s.jobs := (List.mem_filter.mp hp).1
    have hps : p.2.state = .running := by
      have := (List.mem_filter.mp hp).2
      simpa using this
    obtain ⟨w, hw⟩ := hrun p hpj hps
    have hmem : some p.1 ∈ s.workers := List.get?_mem hw
    rw [← hpe]
    exact List.reduceOption_mem_iff.mpr hmem
  have hndr : ((s.jobs.filter (fun p => p.2.state == JobState.running)).map Prod.fst).Nodup := by
    have hsl : List.Sublist
        ((s.jobs.filter (fun p => p.2.state == JobState.running)).map Prod.fst)
        (s.jobs.map Prod.fst) := (List.filter_sublist _).map Prod.fst
    exact hnd.sublist hsl
  have h1 := (List.subperm_of_subset hndr hsub).length_le
  have h2 := List.reduceOption_length_le s.workers
  calc countRunning s
      = ((s.jobs.filter (fun p => p.2.state == JobState.running)).map Prod.fst).length := by
        simp [countRunning]
    _ ≤ s.workers.reduceOption.length := h1
    _ ≤ s.workers.length := h2
    _ = n := hlen

/-- C9: starting the runner with `max_concurrent = n` spawns `n` workers;
in every reachable interleaving of submissions, worker claims/completions
and cancellations — in particular after submitting any number `m > n` of
long-running jobs — at most `n` jobs are in the Running state at any
observed instant, because a job only enters Running when an idle worker
claims it inside `_execute_job` and each worker holds at most one job at a
time. -/
theorem running_jobs_bounded (n : Nat) (s : Sys) (h : Reachable n s) :
    countRunning s ≤ n := by
  have hinv : SysInv n s := by
    induction h with
    | init =>
      refine ⟨by simp [initSys], by simp [initSys], ?_⟩
      intro p hp hrp
      simp [initSys] at hp
    | step hr hs ih => exact sysInv_preserved n ih hs
  exact countRunning_le n s hinv

/-- Witness for C9: three jobs submitted to a two-worker runner, two of
them claimed — the state is reachable and its Running count is within the
bound. -/
theorem running_jobs_bounded_witness :
    countRunning (Sys.mk
      [("c", ⟨.pending, false, false⟩), ("b", ⟨.running, true, false⟩),
        ("a", ⟨.running, true, false⟩)]
      ["c"] [some "a", some "b"]) ≤ 2 := by
  refine running_jobs_bounded 2 _ ?_
  have h1 := Reachable.step (Reachable.init (n := 2)) (Step.runJob _ "a" rfl)
  have h2 := Reachable.step h1 (Step.runJob _ "b" rfl)
  have h3 := Reachable.step h2 (Step.runJob _ "c" rfl)
  have h4 := Reachable.step h3
    (Step.claimJob _ 0 "a" ["b", "c"] ⟨.pending, false, false⟩ rfl rfl rfl)
  exact Reachable.step h4
    (Step.claimJob _ 1 "b" ["c"] ⟨.pending, false, false⟩ rfl rfl rfl)

/-- The store after `run_job("j1")` then `cancel_job("j1")` while `j1` is
still queued: terminal Cancelled, `completed_at` stamped, id still in the
queue. -/
def sysCancelled : Sys :=
  ⟨[("j1", ⟨.cancelled, false, true⟩)], ["j1"], [Option.none, Option.none]⟩

/-- The store after a worker then dequeues `j1` and enters `_execute_job`:
the cancelled job is Running again, with `completed_at` still set. -/
def sysRerunning : Sys :=
  ⟨[("j1", ⟨.running, true, true⟩)], [], [some "j1", Option.none]⟩

/-- The store after that re-run completes: a second transition into a
terminal state. -/
def sysRefinished : Sys :=
  ⟨[("j1", ⟨.completed, true, true⟩)], [], [Option.none, Option.none]⟩

/-- C1 (code bug): `cancel_job` neither removes a queued id from `_queue`
nor interrupts anything (`_running_jobs` is never populated), so after
`run_job("j1")` and `cancel_job("j1")` a worker still dequeues `j1` and
executes it.  The trace below is reachable and exhibits every violation of
the claimed invariant: `j1` reaches the terminal state Cancelled with
`completed_at` set, then re-enters Running — where `completed_at` is
non-null while the state is not terminal — and then transitions into a
terminal state (Completed) a second time. -/
theorem cancelled_job_reruns_after_terminal :
    Reachable 2 sysCancelled
    ∧ Step sysCancelled sysRerunning
    ∧ Step sysRerunning sysRefinished
    ∧ (jget sysCancelled.jobs "j1" = some ⟨.cancelled, false, true⟩
        ∧ JobState.cancelled.isTerminal = true)
    ∧ (jget sysRerunning.jobs "j1" = some ⟨.running, true, true⟩
        ∧ JobState.running.isTerminal = false)
    ∧ jget sysRefinished.jobs "j1" = some ⟨.completed, true, true⟩ := by
  refine ⟨?_, ?_, ?_, ⟨rfl, rfl⟩, ⟨rfl, rfl⟩, rfl⟩
  · exact Reachable.step (Reachable.step (Reachable.init (n := 2)) (Step.runJob _ "j1" rfl))
      (Step.cancelJob _ "j1" ⟨.pending, false, false⟩ rfl)
  · exact Step.claimJob _ 0 "j1" [] ⟨.cancelled, false, true⟩ rfl rfl rfl
  · exact Step.finishJob _ 0 "j1" .completed ⟨.running, true, true⟩ rfl rfl (Or.inl rfl)

/-!
## Panel reconciliation layer
(`src/panel/api/routers/jobs.py`, `src/panel/api/services/agent_client.py`)

The Panel's durable copy is the `jobs`/`job_logs` tables, modelled as row
lists; SQL text columns holding serialized JSON are modelled by the parsed
value they hold.  The reachable Agent is one RPC `call` function
(`AgentClient.call`); `Option.none` is the unreachable agent, where
connecting raises `ConnectionError("Cannot connect to agent")`.
-/

/-- The method names defined on `AgentClient`
(`src/panel/api/services/agent_client.py`). -/
def agentClientMethods : List String :=
  ["connect", "disconnect", "call",
   "get_snapshot", "refresh_discovery",
   "resource_action", "get_resource_logs", "get_resource_stats",
   "get_current_telemetry", "query_telemetry",
   "run_job", "get_job_status", "cancel_job",
   "get_system_info", "get_health",
   "get_network_interfaces", "toggle_wifi", "scan_wifi",
   "get_devices", "send_device_command"]

/-- A reachable Agent as seen through `AgentClient.call`. -/
structure AgentApi where
  call : String → PyVal → Except String PyVal

/-- `AgentClient.call` including the connect step: with no reachable agent
it raises `ConnectionError("Cannot connect to agent")`. -/
def clientCall (agent : Option AgentApi) (method : String) (params : PyVal) :
    Except String PyVal :=
  match agent with
  | Option.none => .error "Cannot connect to agent"
  | some a => a.call method params

/-- An `AgentApi` whose calls run through the embedded socket server and
`PiAgent._handle_rpc` (`inner` = the registered component methods), with
the client-side unwrapping of `AgentClient.call`. -/
def liveAgentApi (inner : String → PyVal → Except String PyVal) : AgentApi :=
  ⟨fun m p =>
    let resp := processRequest (agentDispatch inner)
      (.dict [("jsonrpc", .str "2.0"), ("id", .int 1), ("method", .str m), ("params", p)])
    if hasKey resp "error" then .error ("RPC error: " ++ pyStr (resp.getD "error" .none))
    else .ok (resp.getD "result" .none)⟩

/-- `agent_client.run_job`. -/
def clientRunJob (agent : Option AgentApi) (jobType name : String)
    (config : List (String × PyVal)) : Except String PyVal :=
  clientCall agent "job.run"
    (.dict [("job_type", .str jobType), ("name", .str name), ("config", .dict config)])

/-- `agent_client.get_job_status`. -/
def clientGetJobStatus (agent : Option AgentApi) (jobId : String) : Except String PyVal :=
  clientCall agent "job.status" (.dict [("job_id", .str jobId)])

/-- `agent_client.cancel_job`. -/
def clientCancelJob (agent : Option AgentApi) (jobId : String) : Except String PyVal :=
  clientCall agent "job.cancel" (.dict [("job_id", .str jobId)])

/-- `agent_client.get_job_logs(job_id)` as `_sync_job_logs` invokes it:
`AgentClient` defines no such method, so the attribute access raises
`AttributeError` before any RPC is issued; had the method existed it would
be a `job.logs` call. -/
def clientGetJobLogs (agent : Option AgentApi) (jobId : String) : Except String PyVal :=
  if agentClientMethods.contains "get_job_logs" then
    clientCall agent "job.logs" (.dict [("job_id", .str jobId)])
  else .error "AttributeError: AgentClient object has no attribute get_job_logs"

/-- One row of the Panel's `jobs` table (serialized JSON text columns are
modelled by the value they hold). -/
structure JobRow where
  id : String
  name : String
  jtype : String
  state : Option String
  progress : Option Int
  configJson : Option PyVal
  resultJson : Option PyVal
  error : Option String
  startedBy : Option Int
  startedAt : Option String
  completedAt : Option String
  createdAt : String

/-- One row of the `job_logs` table. -/
structure LogRow where
  jobId : String
  level : Option String
  message : Option String
  createdAt : Option String

/-- The Panel's durable store, plus the audit rows the endpoints insert. -/
structure PanelDb where
  jobs : List JobRow
  jobLogs : List LogRow
  audit : List (Int × String × String)

/-- The `JobResponse` pydantic model served by the jobs router. -/
structure JobResponse where
  id : String
  name : String
  jtype : String
  state : Option String
  progress : Int
  config : Option PyVal
  result : Option PyVal
  error : Option String
  startedBy : Option Int
  startedAt : Option String
  completedAt : Option String
  createdAt : String

/-- Rendering a stored row as a `JobResponse` (`progress = row[4] or 0`,
config/result are the parsed stored values). -/
def rowToResponse (r : JobRow) : JobResponse :=
  ⟨r.id, r.name, r.jtype, r.state, r.progress.getD 0, r.configJson, r.resultJson,
    r.error, r.startedBy, r.startedAt, r.completedAt, r.createdAt⟩

/-- The terminal state names `_sync_job_status` maps to `progress = 100`. -/
def terminalStateNames : List String := ["completed", "failed", "rolled_back", "cancelled"]

/-- Binding a `PyVal` into a TEXT column (`None` → NULL). -/
def pvToDbText : PyVal → Option String
  | .none => Option.none
  | .str s => some s
  | v => some (pyStr v)

/-- `_sync_job_status`: pull `job.status`; any exception (in particular the
unreachable agent) or a falsy status returns with the db untouched;
otherwise the state/result/error delta and timestamps are merged into the
local row (`COALESCE` keeps the stored `started_at`/`completed_at` when the
agent sends null) and persisted. -/
def syncJobStatus (agent : Option AgentApi) (db : PanelDb) (jobId : String) : PanelDb :=
  match clientGetJobStatus agent jobId with
  | .error _ => db
  | .ok status =>
    if !truthy status then db
    else
      let state := status.getD "state" .none
      let result := status.getD "result" .none
      let error := status.getD "error" .none
      let completedAt := status.getD "completed_at" .none
      let startedAt := status.getD "started_at" .none
      let progress : Int :=
        if (match state with | .str s => terminalStateNames.contains s | _ => false)
        then 100 else 0
      { db with jobs := db.jobs.map (fun r =>
          if r.id == jobId then
            { r with
              state := pvToDbText state
              progress := some progress
              resultJson := if truthy result then some result else Option.none
              error := pvToDbText error
              startedAt := match pvToDbText startedAt with
                | some v => some v
                | Option.none => r.startedAt
              completedAt := match pvToDbText completedAt with
                | some v => some v
                | Option.none => r.completedAt }
          else r) }

/-- `ORDER BY created_at` comparison (NULLs order first, text order
otherwise). -/
def leCreatedAt : Option String → Option String → Bool
  | Option.none, _ => true
  | some _, Option.none => false
  | some a, some b => a ≤ b

/-- Stable insertion for `sortLogs`. -/
def insertLogSorted (x : LogRow) : List LogRow → List LogRow
  | [] => [x]
  | y :: ys =>
    if leCreatedAt y.createdAt x.createdAt then y :: insertLogSorted x ys
    else x :: y :: ys

/-- Stable sort of log rows by `created_at` (SQL `ORDER BY created_at`). -/
def sortLogs : List LogRow → List LogRow
  | [] => []
  | x :: xs => insertLogSorted x (sortLogs xs)

/-- `SELECT created_at FROM job_logs ... ORDER BY created_at DESC LIMIT 1`
(`None` when there is no row or the newest row's timestamp is NULL). -/
def lastLogTs (db : PanelDb) (jobId : String) : Option String :=
  match (sortLogs (db.jobLogs.filter (fun r => r.jobId == jobId))).reverse with
  | [] => Option.none
  | r :: _ => r.createdAt

/-- The merge body of `_sync_job_logs` once a log list has been fetched:
skip entries at or before the last stored timestamp, insert the rest. -/
def mergeJobLogs (db : PanelDb) (jobId : String) (logs : PyVal) : PanelDb :=
  if !truthy logs then db
  else
    match logs with
    | .list entries =>
      let lastTs := lastLogTs db jobId
      let lastTsTruthy : Bool := match lastTs with
        | some s => s.length != 0
        | Option.none => false
      let newEntries := entries.filter (fun entry =>
        let ca := entry.getD "created_at" .none
        !(lastTsTruthy && truthy ca
          && (match ca, lastTs with
              | .str c, some l => decide (c ≤ l)
              | _, _ => false)))
      { db with jobLogs := db.jobLogs ++ newEntries.map (fun entry =>
          ⟨jobId, pvToDbText (entry.getD "level" (.str "info")),
            pvToDbText (entry.getD "message" (.str "")),
            pvToDbText (entry.getD "created_at" .none)⟩) }
    | _ => db

/-- `_sync_job_logs`: fetch the agent's logs for the job — the
`AttributeError` (no `get_job_logs` on the client) or an unreachable agent
is swallowed, leaving the db unchanged — then merge. -/
def syncJobLogs (agent : Option AgentApi) (db : PanelDb) (jobId : String) : PanelDb :=
  match clientGetJobLogs agent jobId with
  | .error _ => db
  | .ok logs => mergeJobLogs db jobId logs

/-- `GET /jobs/{job_id}` (`get_job`): sync status then logs, then serve the
local row (404 only when no local row exists). -/
def getJobEndpoint (agent : Option AgentApi) (db : PanelDb) (jobId : String) :
    PanelDb × Except (Nat × String) JobResponse :=
  let db1 := syncJobStatus agent db jobId
  let db2 := syncJobLogs agent db1 jobId
  match db2.jobs.find? (fun r => r.id == jobId) with
  | Option.none => (db2, .error (404, "Job not found"))
  | some row => (db2, .ok (rowToResponse row))

/-- `GET /jobs/{job_id}/logs` (`get_job_logs`): sync logs only, then serve
the stored rows ordered by `created_at` (this endpoint has no 404). -/
def getJobLogsEndpoint (agent : Option AgentApi) (db : PanelDb) (jobId : String) :
    PanelDb × List LogRow :=
  let db1 := syncJobLogs agent db jobId
  (db1, sortLogs (db1.jobLogs.filter (fun r => r.jobId == jobId)))

/-- One iteration of the `stream_job` SSE generator: re-sync status and
logs, then push the merged job+logs payload (`Option.none` = the empty
`job_update` event for an unknown job); the stream never fails. -/
def streamJobStep (agent : Option AgentApi) (db : PanelDb) (jobId : String) :
    PanelDb × Option (JobResponse × List LogRow) :=
  let db1 := syncJobStatus agent db jobId
  let db2 := syncJobLogs agent db1 jobId
  match db2.jobs.find? (fun r => r.id == jobId) with
  | Option.none => (db2, Option.none)
  | some row =>
    (db2, some (rowToResponse row, sortLogs (db2.jobLogs.filter (fun r => r.jobId == jobId))))

/-- The keys of the router's `JOB_TYPES` table. -/
def jobTypeNames : List String := ["backup", "restore", "update", "cleanup", "healthcheck"]

/-- The `JobCreate` request body. -/
structure JobCreate where
  name : String
  jtype : String
  config : Option (List (String × PyVal))

/-- Python dict assignment `config["job_id"] = job_id`. -/
def setConfigKey (cfg : List (String × PyVal)) (k : String) (v : PyVal) :
    List (String × PyVal) :=
  if cfg.any (fun p => p.1 == k) then cfg.map (fun p => if p.1 == k then (p.1, v) else p)
  else cfg ++ [(k, v)]

/-- `POST /jobs` (`create_job`): insert a pending row and an audit entry,
then best-effort submit to the agent — on success the row is flipped to
running, on any exception (`pass  # Job will remain pending`) nothing is
surfaced — and always answer with the created pending record. -/
def createJobEndpoint (agent : Option AgentApi) (db : PanelDb) (userId : Int)
    (req : JobCreate) (jobId now : String) :
    PanelDb × Except (Nat × String) JobResponse :=
  if !jobTypeNames.contains req.jtype then
    (db, .error (400, "Unknown job type: " ++ req.jtype))
  else
    let configJson : Option PyVal :=
      match req.config with
      | some c => if c.isEmpty then Option.none else some (.dict c)
      | Option.none => Option.none
    let row : JobRow :=
      ⟨jobId, req.name, req.jtype, some "pending", Option.none, configJson, Option.none,
        Option.none, some userId, Option.none, Option.none, now⟩
    let db1 : PanelDb :=
      { db with
        jobs := db.jobs ++ [row],
        audit := db.audit
          ++ [(userId, "job.create", "job_id: " ++ jobId ++ ", type: " ++ req.jtype)] }
    let response : JobResponse :=
      ⟨jobId, req.name, req.jtype, some "pending", 0,
        req.config.map (fun c => PyVal.dict c), Option.none, Option.none, some userId,
        Option.none, Option.none, now⟩
    match clientRunJob agent req.jtype req.name
        (setConfigKey (req.config.getD []) "job_id" (.str jobId)) with
    | .ok _ =>
      ({ db1 with jobs := db1.jobs.map (fun r =>
          if r.id == jobId then { r with state := some "running", startedAt := some now }
          else r) },
        .ok response)
    | .error _ => (db1, .ok response)

/-- `POST /jobs/{job_id}/run` (`run_job` route): only pending jobs can be
started; an exception from the agent submission — e.g. the unreachable
agent's `ConnectionError` — surfaces as HTTP 500 `Failed to start job:
<message>`. -/
def runJobEndpoint (agent : Option AgentApi) (db : PanelDb) (userId : Int)
    (jobId now : String) : PanelDb × Except (Nat × String) String :=
  match db.jobs.find? (fun r => r.id == jobId) with
  | Option.none => (db, .error (404, "Job not found"))
  | some row =>
    if row.state != some "pending" then
      (db, .error (400, "Job is not pending (current: " ++ row.state.getD "None" ++ ")"))
    else
      let config : List (String × PyVal) :=
        match row.configJson with
        | some (.dict c) => c
        | _ => []
      match clientRunJob agent row.jtype row.name config with
      | .error e => (db, .error (500, "Failed to start job: " ++ e))
      | .ok _ =>
        ({ db with
            jobs := db.jobs.map (fun r =>
              if r.id == jobId then { r with state := some "running", startedAt := some now }
              else r),
            audit := db.audit ++ [(userId, "job.run", "job_id: " ++ jobId)] },
          .ok ("Job " ++ jobId ++ " started"))

/-- `POST /jobs/{job_id}/cancel` (the `cancel_job` route): pending/running
rows only; the agent cancel is attempted with any exception swallowed
("Agent may not be available"), and the local row is marked cancelled
either way. -/
def cancelJobEndpoint (agent : Option AgentApi) (db : PanelDb) (userId : Int)
    (jobId now : String) : PanelDb × Except (Nat × String) String :=
  match db.jobs.find? (fun r => r.id == jobId) with
  | Option.none => (db, .error (404, "Job not found"))
  | some row =>
    if !(row.state == some "pending" || row.state == some "running") then
      (db, .error (400, "Cannot cancel job in state: " ++ row.state.getD "None"))
    else
      let _ := clientCancelJob agent jobId
      ({ db with
          jobs := db.jobs.map (fun r =>
            if r.id == jobId then { r with state := some "cancelled", completedAt := some now }
            else r),
          audit := db.audit ++ [(userId, "job.cancel", "job_id: " ++ jobId)] },
        .ok ("Job " ++ jobId ++ " cancelled"))

theorem syncJobLogs_noop (agent : Option AgentApi) (db : PanelDb) (jobId : String) :
    syncJobLogs agent db jobId = db := rfl

theorem syncJobStatus_unreachable (db : PanelDb) (jobId : String) :
    syncJobStatus Option.none db jobId = db := rfl

/-- C7 (code bug): the Panel's per-read log pull can never happen — the
`AgentClient` class defines no `get_job_logs` method (the attribute access
inside `_sync_job_logs` raises `AttributeError`, which its bare `except`
swallows), and the Agent's `_handle_rpc` registry exposes no `job.logs`
method either — so `_sync_job_logs` leaves the durable copy unchanged on
every read, for every agent state; no Agent log line is ever merged. -/
theorem log_pull_never_happens :
    agentClientMethods.contains "get_job_logs" = false
    ∧ agentHandlers.contains "job.logs" = false
    ∧ ∀ (agent : Option AgentApi) (db : PanelDb) (jobId : String),
        syncJobLogs agent db jobId = db :=
  ⟨rfl, rfl, fun _ _ _ => rfl⟩

/-- C8: with the Agent unreachable, every Panel read of an existing job
serves the locally persisted copy without failing — `get job` and the
stream serve the stored row, `list logs` serves the stored log rows, and
the cancel route still succeeds — while a job submission to the Agent
(`run_job` on a pending row) is the only place an unreachable agent
surfaces, as HTTP 500 `Failed to start job: Cannot connect to agent`;
`create_job`'s submission failure is swallowed and the job simply remains
pending. -/
theorem unreachable_agent_serves_local_copy
    (db : PanelDb) (userId : Int) (jobId now : String) (row : JobRow)
    (hrow : db.jobs.find? (fun r => r.id == jobId) = some row) :
    getJobEndpoint Option.none db jobId = (db, .ok (rowToResponse row))
    ∧ getJobLogsEndpoint Option.none db jobId
        = (db, sortLogs (db.jobLogs.filter (fun r => r.jobId == jobId)))
    ∧ streamJobStep Option.none db jobId
        = (db, some (rowToResponse row, sortLogs (db.jobLogs.filter (fun r => r.jobId == jobId))))
    ∧ (row.state = some "pending" →
        runJobEndpoint Option.none db userId jobId now
          = (db, .error (500, "Failed to start job: Cannot connect to agent")))
    ∧ (∀ (req : JobCreate) (newId : String), jobTypeNames.contains req.jtype = true →
        (createJobEndpoint Option.none db userId req newId now).2
          = .ok ⟨newId, req.name, req.jtype, some "pending", 0,
              req.config.map (fun c => PyVal.dict c), Option.none, Option.none, some userId,
              Option.none, Option.none, now⟩)
    ∧ ((row.state = some "pending" ∨ row.state = some "running") →
        (cancelJobEndpoint Option.none db userId jobId now).2
          = .ok ("Job " ++ jobId ++ " cancelled")) := by
  refine ⟨?_, ?_, ?_, ?_, ?_, ?_⟩
  · simp only [getJobEndpoint, syncJobStatus_unreachable, syncJobLogs_noop, hrow]
  · simp only [getJobLogsEndpoint, syncJobLogs_noop]
  · simp only [streamJobStep, syncJobStatus_unreachable, syncJobLogs_noop, hrow]
  · intro hpend
    simp only [runJobEndpoint, hrow, hpend]
    simp [clientRunJob, clientCall]
  · intro req newId htype
    simp only [createJobEndpoint, htype, Bool.not_true, Bool.false_eq_true, if_false,
      clientRunJob, clientCall]
  · intro hstate
    simp only [cancelJobEndpoint, hrow]
    rcases hstate with h | h <;> simp [h]

/-- A stored job row for the C8 witness. -/
def rowWitness : JobRow :=
  ⟨"abc123", "nightly", "cleanup", some "pending", Option.none, Option.none, Option.none,
    Option.none, some 1, Option.none, Option.none, "2026-01-01T00:00:00"⟩

/-- A Panel store holding that row and one of its log lines. -/
def dbWitness : PanelDb :=
  ⟨[rowWitness],
    [⟨"abc123", some "info", some "Job queued", some "2026-01-01T00:00:01"⟩],
    []⟩

/-- Witness for C8: with no reachable agent, reading job `abc123` serves
the stored row, and starting it surfaces the explicit cannot-start
error. -/
theorem unreachable_agent_serves_local_copy_witness :
    getJobEndpoint Option.none dbWitness "abc123" = (dbWitness, .ok (rowToResponse rowWitness))
    ∧ runJobEndpoint Option.none dbWitness 1 "abc123" "2026-01-01T00:01:00"
        = (dbWitness, .error (500, "Failed to start job: Cannot connect to agent")) := by
  have h := unreachable_agent_serves_local_copy dbWitness 1 "abc123" "2026-01-01T00:01:00"
    rowWitness rfl
  exact ⟨h.1, h.2.2.2.1 rfl⟩
